import Mathlib

/-
Verification of the prompt-file CRUD server (src/server.py): a shallow
embedding of the request handlers of `CORSRequestHandler` and of the
pieces of the Python standard library they rely on
(`os.path.basename`, `os.path.join`, `os.path.exists`, `re.sub` with the
fixed character-class pattern, `str.endswith`, Python truthiness of
JSON-decoded values), together with proofs about the embedded handlers.

Modelling conventions:
- the prompts directory (`PROMPTS_DIR`) is modelled as a `Store`, an
  association list from filenames to stored JSON values; the invariant of
  the code is that this directory holds only regular files, directly
  inside it;
- paths are plain strings; POSIX path resolution below the prompts
  directory is modelled exactly, and existence of paths that leave the
  modelled subtree (absolute paths, paths whose first component is "..")
  is delegated to an `oracle` parameter standing for the unmodelled rest
  of the filesystem;
- machine-level I/O failures (disk full, permissions) are outside the
  model: file reads and writes that the OS would accept always succeed.
-/

/-- The JSON values produced by `json.loads`.  Numbers are modelled as
integers; none of the handlers inspects numeric values beyond Python
truthiness. -/
inductive JVal where
  | null
  | bool (b : Bool)
  | num (n : Int)
  | str (s : String)
  | arr (xs : List JVal)
  | obj (kvs : List (String × JVal))

/-- Python truthiness (`bool(v)`) of a JSON-decoded value, as used by
the `if not filename or not content` checks in the handlers. -/
def truthy : JVal → Bool
  | .null => false
  | .bool b => b
  | .num n => decide (n ≠ 0)
  | .str s => decide (s ≠ "")
  | .arr xs => !xs.isEmpty
  | .obj kvs => !kvs.isEmpty

/-- Truthiness of `data.get(key)`: `None` (absent key) is falsy. -/
def otruthy : Option JVal → Bool
  | none => false
  | some v => truthy v

/-- Result of a Python expression that can raise: `exn` carries the
exception text that the `except` clause would render. -/
inductive ParseResult (α : Type) where
  | ok (a : α)
  | exn (e : String)

/-- Lookup in a decoded JSON object, first binding wins; a decoded
Python dict has unique keys, so this matches `dict.get`. -/
def lookupKV : List (String × JVal) → String → Option JVal
  | [], _ => none
  | (k, v) :: rest, key => if k = key then some v else lookupKV rest key

/-- `data.get(key)` where `data` is an arbitrary decoded JSON value:
on a non-object it raises `AttributeError` (caught by the handlers). -/
def pyGet (v : JVal) (key : String) : ParseResult (Option JVal) :=
  match v with
  | .obj kvs => .ok (lookupKV kvs key)
  | _ => .exn "AttributeError"

/-- The character class of the sanitizing regex
`re.sub(r'[^a-zA-Z0-9_.-]', '', ...)`: ASCII letters, ASCII digits,
underscore, dot, hyphen.  `Char.isAlphanum` is exactly the ASCII test
`a-z, A-Z, 0-9`. -/
def allowedChar (c : Char) : Bool :=
  c.isAlphanum || c == '_' || c == '.' || c == '-'

/-- `os.path.basename` on the character list of a path: the substring
after the last slash (POSIX semantics; the accumulator is reset at each
slash). -/
def basenameChars : List Char → List Char → List Char
  | acc, [] => acc
  | acc, c :: rest => basenameChars (if c = '/' then [] else acc ++ [c]) rest

/-- The sanitizer of `handle_save_prompt` / `handle_delete_prompt`
(src/server.py lines 105 and 132):
`re.sub(r'[^a-zA-Z0-9_.-]', '', os.path.basename(filename))`. -/
def sanitize (s : String) : String :=
  ⟨(basenameChars [] s.data).filter allowedChar⟩

/-- Python `s.endswith(t)`: suffix test. -/
def pyEndsWith (s t : String) : Bool :=
  t.data.isSuffixOf s.data

/-- Splitting a path into slash-separated fragments (the empty path
yields one empty fragment, as in POSIX component analysis). -/
def splitSlash : List Char → List (List Char)
  | [] => [[]]
  | c :: rest =>
    match splitSlash rest with
    | [] => [[]]
    | g :: gs => if c = '/' then [] :: g :: gs else (c :: g) :: gs

/-- Non-trivial path components: empty fragments (from doubled or
trailing slashes) and "." fragments do not move the resolution. -/
def relComponents (s : String) : List String :=
  ((splitSlash s.data).map (fun l => (⟨l⟩ : String))).filter
    (fun c => decide (c ≠ "") && decide (c ≠ "."))

/-- Whether the path string starts with a slash (the case in which
`os.path.join` discards the directory argument). -/
def startsSlash (s : String) : Bool :=
  match s.data with
  | [] => false
  | c :: _ => decide (c = '/')

/-- The last raw slash-separated fragment of the path. -/
def lastRaw (s : String) : String :=
  ⟨((splitSlash s.data).getLastD [])⟩

/-- A POSIX path whose last fragment is empty or "." (for example
"a/" or "a/.") resolves only if it denotes a directory. -/
def needsDir (s : String) : Bool :=
  decide (lastRaw s = "") || decide (lastRaw s = ".")

-- The prompts directory as an association list filename -> stored JSON.
abbrev Store := List (String × JVal)

/-- The filenames present in the prompts directory. -/
def keysOf (st : Store) : List String := st.map Prod.fst

/-- Whether a file of the given name is directly inside the prompts
directory. -/
def storeMem (st : Store) (k : String) : Bool :=
  (keysOf st).any (fun x => decide (x = k))

/-- Effect of `open(filepath, 'w')` + `json.dump`: create the file or
overwrite the existing one of the same name. -/
def setFile (st : Store) (k : String) (v : JVal) : Store :=
  if storeMem st k then st.map (fun p => if p.1 = k then (k, v) else p)
  else st ++ [(k, v)]

/-- Effect of `os.remove` on a regular file directly inside the prompts
directory. -/
def eraseFile (st : Store) (k : String) : Store :=
  st.filter (fun p => decide (p.1 ≠ k))

/-- Model of `os.path.exists(os.path.join(PROMPTS_DIR, f))`.  The
`oracle` answers existence for paths that leave the modelled subtree
(absolute `f`, or a first component ".." followed by more components;
a bare ".." or "../" denotes the parent `assets` directory, which the
startup code creates, hence `true`).  Within the subtree: the prompts
directory itself exists; a single plain component exists iff the store
holds that filename, and then only without a trailing-slash directory
requirement; anything deeper fails because the store holds only regular
files (ENOTDIR or ENOENT at the first component). -/
def existsJoined (st : Store) (oracle : String → Bool) (f : String) : Bool :=
  if startsSlash f then oracle f
  else
    match relComponents f with
    | [] => true
    | [name] =>
      if name = ".." then true
      else storeMem st name && !(needsDir f)
    | name :: _ :: _ =>
      if name = ".." then oracle f else false

/-- The JSON documents the handlers serialize with `json.dumps` into
their 200 responses. -/
inductive ResponseBody where
  | strList (names : List String)
  | existsB (b : Bool)
  | successMsg (msg : String)
deriving DecidableEq

/-- Responses a handler produces: `ok` carries the JSON document sent
after `send_response(200)`; `error` models `send_error(code, message)`. -/
inductive Response where
  | ok (body : ResponseBody)
  | error (code : Nat) (message : String)
deriving DecidableEq

/-- The names listed by `GET /list-prompts`:
`[f for f in os.listdir(PROMPTS_DIR) if f.endswith('.json')]`. -/
def promptNames (st : Store) : List String :=
  (keysOf st).filter (fun n => pyEndsWith n ".json")

/-- `handle_list_prompts` (src/server.py lines 68-76), on the happy
path (the model has no I/O failures, so the `except` branch is dead). -/
def handle_list_prompts (st : Store) : Response :=
  .ok (.strList (promptNames st))

/-- `handle_check_prompt_exists` (src/server.py lines 78-89).  The
`qf` argument is the already-parsed `filename` query parameter;
`parse_qs` drops blank values, so an empty-valued parameter also
arrives as `none`. -/
def handle_check_prompt_exists (st : Store) (oracle : String → Bool)
    (qf : Option String) : Response :=
  match qf with
  | none => .error 400 "Filename parameter is missing"
  | some f =>
    if f = "" then .error 400 "Filename parameter is missing"
    else .ok (.existsB (existsJoined st oracle f))

/-- `handle_save_prompt` (src/server.py lines 91-119).  `body` is the
outcome of reading Content-Length and `json.loads`; any exception there
or in `data.get` / `os.path.basename` lands in the `except` clause,
which answers 500 with the exception text. -/
def handle_save_prompt (st : Store) (body : ParseResult JVal) :
    Store × Response :=
  match body with
  | .exn e => (st, .error 500 ("Error saving prompt: " ++ e))
  | .ok data =>
    match pyGet data "filename" with
    | .exn e => (st, .error 500 ("Error saving prompt: " ++ e))
    | .ok fopt =>
      match pyGet data "content" with
      | .exn e => (st, .error 500 ("Error saving prompt: " ++ e))
      | .ok copt =>
        if !(otruthy fopt) || !(otruthy copt) then
          (st, .error 400 "Missing filename or content")
        else
          match fopt with
          | some (.str f) =>
            let safe := sanitize f
            if !(pyEndsWith safe ".json") then
              (st, .error 400 "Filename must end with .json")
            else
              match copt with
              | some c =>
                (setFile st safe c,
                  .ok (.successMsg "Prompt saved successfully."))
              -- unreachable: otruthy none = false
              | none => (st, .error 400 "Missing filename or content")
          -- os.path.basename on a truthy non-string raises TypeError,
          -- caught by the except clause
          | _ => (st, .error 500 "Error saving prompt: TypeError")

/-- `handle_delete_prompt` (src/server.py lines 121-144).  When the
sanitized name is empty, "." or "..", the joined path denotes the
prompts directory itself (with or without a trailing slash) or its
parent: `os.path.exists` is true, and `os.remove` on a directory raises
`OSError`, so the handler answers 500 with the exception text (modelled
by the fixed tag "OSError"). -/
def handle_delete_prompt (st : Store) (body : ParseResult JVal) :
    Store × Response :=
  match body with
  | .exn e => (st, .error 500 ("Error deleting prompt: " ++ e))
  | .ok data =>
    match pyGet data "filename" with
    | .exn e => (st, .error 500 ("Error deleting prompt: " ++ e))
    | .ok fopt =>
      if !(otruthy fopt) then (st, .error 400 "Missing filename")
      else
        match fopt with
        | some (.str f) =>
          let safe := sanitize f
          if safe = "" ∨ safe = "." ∨ safe = ".." then
            (st, .error 500 "Error deleting prompt: OSError")
          else if storeMem st safe then
            (eraseFile st safe, .ok (.successMsg "Prompt deleted."))
          else (st, .error 404 "File not found")
        -- os.path.basename on a truthy non-string raises TypeError
        | _ => (st, .error 500 "Error deleting prompt: TypeError")

/-- The three headers added by the overridden `end_headers`
(src/server.py lines 37-41). -/
def corsHeaders : List (String × String) :=
  [("Access-Control-Allow-Origin", "*"),
   ("Access-Control-Allow-Methods", "GET, POST, OPTIONS"),
   ("Access-Control-Allow-Headers", "Content-Type, Authorization")]

/-- `end_headers`: the CORS headers are appended after whatever headers
the response path buffered before calling it, then the buffer is
flushed by `super().end_headers()`.  (Server and Date headers, added
uniformly by `send_response`, are left out of the model.) -/
def end_headers_emit (prior : List (String × String)) :
    List (String × String) :=
  prior ++ corsHeaders

/-- The bytes of a response body on the wire. -/
inductive WireBody where
  | json (b : ResponseBody)
  | errorPage (code : Nat) (message : String)
  | staticData (s : String)
deriving DecidableEq

/-- A full response: status line, headers as flushed by `end_headers`,
body. -/
structure WireResponse where
  status : Nat
  headers : List (String × String)
  body : Option WireBody
deriving DecidableEq

/-- Turning a handler response into a wire response.  200 responses
buffer a Content-Type header before `end_headers`; `send_error` buffers
Connection and Content-Type (Content-Length is left out of the model)
and renders an HTML error page. -/
def toWire (r : Response) : WireResponse :=
  match r with
  | .ok b =>
    { status := 200
      headers := end_headers_emit [("Content-Type", "application/json")]
      body := some (.json b) }
  | .error code msg =>
    { status := code
      headers := end_headers_emit
        [("Connection", "close"),
         ("Content-Type", "text/html;charset=utf-8")]
      body := some (.errorPage code msg) }

inductive Method where
  | GET
  | POST
  | OPTIONS
deriving DecidableEq

/-- A parsed incoming request.  `path` is the raw request target
(`self.path`); `queryFilename` is the `filename` query parameter as
`parse_qs` delivers it; `body` is the outcome of reading and decoding
the POST body. -/
structure Request where
  method : Method
  path : String
  queryFilename : Option String
  body : ParseResult JVal

/-- `urllib.parse.urlparse(path).path`: the request target up to the
first query or fragment delimiter. -/
def urlPath (p : String) : String :=
  ⟨p.data.takeWhile (fun c => !(decide (c = '?')) && !(decide (c = '#')))⟩

/-- `do_POST` (src/server.py lines 59-66): exact match on the raw
path. -/
def do_POST (st : Store) (path : String) (body : ParseResult JVal) :
    Store × Response :=
  if path = "/save-prompt" then handle_save_prompt st body
  else if path = "/delete-prompt" then handle_delete_prompt st body
  else (st, .error 404 "Endpoint not found")

/-- The full per-request behaviour of `CORSRequestHandler`: method
dispatch (`do_OPTIONS`, `do_GET`, `do_POST`).  The static-file fallback
of `do_GET` is `SimpleHTTPRequestHandler.do_GET`, which emits some
status, headers and body outside this model and always finishes through
the overridden `end_headers`; its outcome is abstracted by the
`staticStatus` / `staticPrior` / `staticBody` parameters. -/
def serve (st : Store) (oracle : String → Bool) (req : Request)
    (staticStatus : Nat) (staticPrior : List (String × String))
    (staticBody : Option WireBody) : Store × WireResponse :=
  match req.method with
  | .OPTIONS =>
    (st, { status := 204, headers := end_headers_emit [], body := none })
  | .GET =>
    let p := urlPath req.path
    if p = "/list-prompts" then (st, toWire (handle_list_prompts st))
    else if p = "/check-prompt-exists" then
      (st, toWire (handle_check_prompt_exists st oracle req.queryFilename))
    else
      (st, { status := staticStatus
             headers := end_headers_emit staticPrior
             body := staticBody })
  | .POST =>
    ((do_POST st req.path req.body).1, toWire (do_POST st req.path req.body).2)

/-- The property the containment claim asserts of a target path
`os.path.join(PROMPTS_DIR, name)`: it denotes an entry directly inside
the prompts directory — not an absolute path elsewhere, not the
directory itself (empty relative part or only "."/empty fragments), not
an ancestor (a ".." component), not anything deeper than one level. -/
def resolvesStrictlyInside (name : String) : Bool :=
  !(startsSlash name) &&
    (match relComponents name with
     | [c] => decide (c ≠ "..")
     | _ => false)

-- ### Helper lemmas about the sanitizer and path components

lemma sanitize_no_slash (s : String) : '/' ∉ (sanitize s).data := by
  intro h
  have h2 := (List.mem_filter.mp h).2
  simp [allowedChar, Char.isAlphanum, Char.isAlpha, Char.isDigit,
    Char.isUpper, Char.isLower] at h2

lemma basenameChars_no_slash (l : List Char) (h : '/' ∉ l) :
    ∀ acc, basenameChars acc l = acc ++ l := by
  induction l with
  | nil => intro acc; simp [basenameChars]
  | cons c rest ih =>
    intro acc
    have hc : c ≠ '/' := by rintro rfl; exact h (List.mem_cons_self _ _)
    have hr : '/' ∉ rest := fun hm => h (List.mem_cons_of_mem _ hm)
    simp [basenameChars, hc, ih hr]

lemma splitSlash_no_slash (l : List Char) (h : '/' ∉ l) :
    splitSlash l = [l] := by
  induction l with
  | nil => simp [splitSlash]
  | cons c rest ih =>
    have hc : c ≠ '/' := by rintro rfl; exact h (List.mem_cons_self _ _)
    have hr : '/' ∉ rest := fun hm => h (List.mem_cons_of_mem _ hm)
    simp [splitSlash, ih hr, hc]

lemma relComponents_single (f : String) (h : '/' ∉ f.data)
    (h0 : f ≠ "") (h1 : f ≠ ".") : relComponents f = [f] := by
  simp [relComponents, splitSlash_no_slash f.data h, h0, h1]

lemma startsSlash_eq_false (f : String) (h : '/' ∉ f.data) :
    startsSlash f = false := by
  unfold startsSlash
  cases hd : f.data with
  | nil => rfl
  | cons c t =>
    have : c ≠ '/' := by
      rintro rfl; exact h (hd ▸ List.mem_cons_self _ _)
    simp [this]

lemma lastRaw_self (f : String) (h : '/' ∉ f.data) : lastRaw f = f := by
  simp [lastRaw, splitSlash_no_slash f.data h]

lemma needsDir_eq_false (f : String) (h : '/' ∉ f.data)
    (h0 : f ≠ "") (h1 : f ≠ ".") : needsDir f = false := by
  simp [needsDir, lastRaw_self f h, h0, h1]

lemma existsJoined_plain (st : Store) (oracle : String → Bool) (f : String)
    (h : '/' ∉ f.data) (h0 : f ≠ "") (h1 : f ≠ ".") (h2 : f ≠ "..") :
    existsJoined st oracle f = storeMem st f := by
  simp [existsJoined, startsSlash_eq_false f h, relComponents_single f h h0 h1,
    h2, needsDir_eq_false f h h0 h1]

lemma sanitize_allowed (s : String) :
    ∀ c ∈ (sanitize s).data, allowedChar c = true :=
  fun _ h => (List.mem_filter.mp h).2

lemma json_suffix_ne (s : String) (h : pyEndsWith s ".json" = true) :
    s ≠ "" ∧ s ≠ "." ∧ s ≠ ".." := by
  refine ⟨?_, ?_, ?_⟩ <;> rintro rfl <;> exact absurd h (by decide)

-- ### Helper lemmas about the store

lemma storeMem_iff (st : Store) (k : String) :
    storeMem st k = true ↔ k ∈ keysOf st := by
  simp [storeMem, List.any_eq_true]

lemma keysOf_map_upd (st : Store) (k : String) (v : JVal) :
    keysOf (st.map (fun p => if p.1 = k then (k, v) else p)) = keysOf st := by
  induction st with
  | nil => rfl
  | cons p t ih =>
    by_cases hp : p.1 = k <;> simp [keysOf, hp] <;>
      simpa [keysOf] using ih

lemma keysOf_setFile (st : Store) (k : String) (v : JVal) :
    keysOf (setFile st k v) =
      if storeMem st k then keysOf st else keysOf st ++ [k] := by
  unfold setFile
  split
  · exact keysOf_map_upd st k v
  · simp [keysOf]

lemma mem_keysOf_setFile (st : Store) (k : String) (v : JVal) :
    k ∈ keysOf (setFile st k v) := by
  rw [keysOf_setFile]
  split
  · exact (storeMem_iff st k).mp (by assumption)
  · simp

lemma storeMem_setFile (st : Store) (k : String) (v : JVal) (f : String) :
    storeMem (setFile st k v) f = true ↔ (f = k ∨ storeMem st f = true) := by
  rw [storeMem_iff, keysOf_setFile]
  split
  · constructor
    · exact fun h => Or.inr ((storeMem_iff st f).mpr h)
    · rintro (rfl | h)
      · exact (storeMem_iff st f).mp (by assumption)
      · exact (storeMem_iff st f).mp h
  · rw [List.mem_append]
    constructor
    · rintro (h | h)
      · exact Or.inr ((storeMem_iff st f).mpr h)
      · exact Or.inl (by simpa using h)
    · rintro (rfl | h)
      · simp
      · exact Or.inl ((storeMem_iff st f).mp h)

lemma not_mem_keysOf_erase (st : Store) (k : String) :
    k ∉ keysOf (eraseFile st k) := by
  intro h
  simp only [keysOf, eraseFile, List.mem_map, List.mem_filter] at h
  obtain ⟨p, ⟨_, hne⟩, hk⟩ := h
  simp at hne
  exact hne hk

-- ### Helper lemmas unfolding the handlers on well-formed requests

lemma otruthy_some (v : JVal) : otruthy (some v) = truthy v := rfl

lemma truthy_str (s : String) : truthy (.str s) = decide (s ≠ "") := rfl

lemma handle_save_ok (st : Store) (f : String) (c : JVal)
    (hf : f ≠ "") (hc : truthy c = true)
    (hs : pyEndsWith (sanitize f) ".json" = true) :
    handle_save_prompt st
        (.ok (.obj [("filename", .str f), ("content", c)])) =
      (setFile st (sanitize f) c,
        .ok (.successMsg "Prompt saved successfully.")) := by
  simp [handle_save_prompt, pyGet, lookupKV, otruthy_some, truthy_str, hf, hc, hs]

lemma handle_save_bad_suffix (st : Store) (f : String) (c : JVal)
    (hf : f ≠ "") (hc : truthy c = true)
    (hs : pyEndsWith (sanitize f) ".json" = false) :
    handle_save_prompt st
        (.ok (.obj [("filename", .str f), ("content", c)])) =
      (st, .error 400 "Filename must end with .json") := by
  simp [handle_save_prompt, pyGet, lookupKV, otruthy_some, truthy_str, hf, hc, hs]

lemma handle_delete_found (st : Store) (f : String)
    (hf : f ≠ "") (h0 : sanitize f ≠ "") (h1 : sanitize f ≠ ".")
    (h2 : sanitize f ≠ "..") (hmem : storeMem st (sanitize f) = true) :
    handle_delete_prompt st (.ok (.obj [("filename", .str f)])) =
      (eraseFile st (sanitize f), .ok (.successMsg "Prompt deleted.")) := by
  simp [handle_delete_prompt, pyGet, lookupKV, otruthy_some, truthy_str,
    hf, h0, h1, h2, hmem]

lemma handle_delete_missing (st : Store) (f : String)
    (hf : f ≠ "") (h0 : sanitize f ≠ "") (h1 : sanitize f ≠ ".")
    (h2 : sanitize f ≠ "..") (hmem : storeMem st (sanitize f) = false) :
    handle_delete_prompt st (.ok (.obj [("filename", .str f)])) =
      (st, .error 404 "File not found") := by
  simp [handle_delete_prompt, pyGet, lookupKV, otruthy_some, truthy_str,
    hf, h0, h1, h2, hmem]

lemma mem_end_headers (prior : List (String × String)) (x : String × String)
    (h : x ∈ corsHeaders) : x ∈ end_headers_emit prior := by
  simp only [end_headers_emit, List.mem_append]
  exact Or.inr h

lemma cors_toWire (r : Response) (x : String × String) (h : x ∈ corsHeaders) :
    x ∈ (toWire r).headers := by
  cases r <;> exact mem_end_headers _ _ h

lemma serve_headers_cors (st : Store) (oracle : String → Bool) (req : Request)
    (sS : Nat) (sP : List (String × String)) (sB : Option WireBody)
    (x : String × String) (hx : x ∈ corsHeaders) :
    x ∈ (serve st oracle req sS sP sB).2.headers := by
  obtain ⟨m, p, qf, body⟩ := req
  cases m with
  | OPTIONS => exact mem_end_headers _ _ hx
  | GET =>
    by_cases h1 : urlPath p = "/list-prompts"
    · simpa [serve, h1] using cors_toWire _ _ hx
    · by_cases h2 : urlPath p = "/check-prompt-exists"
      · simpa [serve, h1, h2] using cors_toWire _ _ hx
      · simpa [serve, h1, h2] using mem_end_headers sP _ hx
  | POST => exact cors_toWire _ _ hx

-- ### Claim theorems

/-- C8: the filename sanitizer used by save-prompt and delete-prompt is
idempotent — sanitizing an already-sanitized name changes nothing. -/
theorem c8_sanitize_idempotent (s : String) :
    sanitize (sanitize s) = sanitize s := by
  show (⟨(basenameChars [] (sanitize s).data).filter allowedChar⟩ : String)
      = sanitize s
  rw [basenameChars_no_slash _ (sanitize_no_slash s) [], List.nil_append,
    List.filter_eq_self.mpr (sanitize_allowed s)]

/-- C5: saving a prompt with the raw filename "a b!@#.json" stores the
content under exactly the filename "ab.json" — basename stripping plus
whitelist filtering maps "a b!@#.json" to "ab.json". -/
theorem c5_save_sanitizes_example (st : Store) (c : JVal)
    (hc : truthy c = true) :
    sanitize "a b!@#.json" = "ab.json"
    ∧ handle_save_prompt st
        (.ok (.obj [("filename", .str "a b!@#.json"), ("content", c)])) =
      (setFile st "ab.json" c,
        .ok (.successMsg "Prompt saved successfully.")) := by
  refine ⟨by decide, ?_⟩
  have h := handle_save_ok st "a b!@#.json" c (by decide) hc (by decide)
  rw [show sanitize "a b!@#.json" = "ab.json" from by decide] at h
  exact h

/-- Witness for C5 at the content "x" and the empty prompts directory. -/
theorem c5_save_sanitizes_example_witness :
    sanitize "a b!@#.json" = "ab.json"
    ∧ handle_save_prompt []
        (.ok (.obj [("filename", .str "a b!@#.json"), ("content", .str "x")])) =
      (setFile [] "ab.json" (.str "x"),
        .ok (.successMsg "Prompt saved successfully.")) :=
  c5_save_sanitizes_example [] (.str "x") (by decide)

/-- C3: a save-prompt request with truthy filename and content whose
sanitized filename does not end in ".json" is answered with the client
error 400 "Filename must end with .json" and the prompts directory is
left unchanged. -/
theorem c3_save_bad_suffix_rejected (st : Store) (f : String) (c : JVal)
    (hf : f ≠ "") (hc : truthy c = true)
    (hs : pyEndsWith (sanitize f) ".json" = false) :
    handle_save_prompt st
        (.ok (.obj [("filename", .str f), ("content", c)])) =
      (st, .error 400 "Filename must end with .json") :=
  handle_save_bad_suffix st f c hf hc hs

/-- Witness for C3 at the filename "notes" from the spec example. -/
theorem c3_save_bad_suffix_rejected_witness :
    handle_save_prompt []
        (.ok (.obj [("filename", .str "notes"), ("content", .str "x")])) =
      ([], .error 400 "Filename must end with .json") :=
  c3_save_bad_suffix_rejected [] "notes" (.str "x")
    (by decide) (by decide) (by decide)

/-- C1 counterexample: the filename "." is accepted by delete-prompt
(it is truthy and survives sanitization unchanged), yet the target path
built from it is `PROMPTS_DIR/.`, the prompts directory itself — not a
path strictly inside the directory; the attempted removal then raises
and the handler answers 500. -/
theorem c1_counterexample :
    sanitize "." = "."
    ∧ resolvesStrictlyInside (sanitize ".") = false
    ∧ (handle_delete_prompt []
        (.ok (.obj [("filename", .str ".")]))).2 =
      .error 500 "Error deleting prompt: OSError" :=
  ⟨by decide, by decide, rfl⟩

/-- C1 (amended): the sanitized filename never contains a path
separator, and whenever it is nonempty and neither "." nor ".." — in
particular whenever it passes the ".json" suffix check of save-prompt —
the target path joined from the prompts directory and the sanitized
name resolves strictly inside the prompts directory. -/
theorem c1_sanitized_path_containment (f : String) :
    '/' ∉ (sanitize f).data
    ∧ (sanitize f ≠ "" → sanitize f ≠ "." → sanitize f ≠ ".." →
        resolvesStrictlyInside (sanitize f) = true)
    ∧ (pyEndsWith (sanitize f) ".json" = true →
        resolvesStrictlyInside (sanitize f) = true) := by
  have hns := sanitize_no_slash f
  have main : sanitize f ≠ "" → sanitize f ≠ "." → sanitize f ≠ ".." →
      resolvesStrictlyInside (sanitize f) = true := by
    intro h0 h1 h2
    simp [resolvesStrictlyInside, startsSlash_eq_false _ hns,
      relComponents_single _ hns h0 h1, h2]
  refine ⟨hns, main, fun hs => ?_⟩
  obtain ⟨h0, h1, h2⟩ := json_suffix_ne _ hs
  exact main h0 h1 h2

/-- Witness for C1 at the path-traversal filename from the spec. -/
theorem c1_sanitized_path_containment_witness :
    resolvesStrictlyInside (sanitize "../../etc/passwd") = true :=
  (c1_sanitized_path_containment "../../etc/passwd").2.1
    (by decide) (by decide) (by decide)

/-- C2 counterexample: saving the raw filename "./ab.json" stores the
file as "ab.json"; checking existence with the same raw filename then
answers exists true although no file of that exact name lies directly
inside the prompts directory and the raw name differs from the
sanitized stored name. -/
theorem c2_counterexample :
    handle_check_prompt_exists
        (handle_save_prompt []
          (.ok (.obj [("filename", .str "./ab.json"),
            ("content", .str "x")]))).1
        (fun _ => false) (some "./ab.json") = .ok (.existsB true)
    ∧ storeMem
        (handle_save_prompt []
          (.ok (.obj [("filename", .str "./ab.json"),
            ("content", .str "x")]))).1
        "./ab.json" = false
    ∧ "./ab.json" ≠ sanitize "./ab.json" :=
  ⟨rfl, rfl, by decide⟩

/-- C2 (amended): for a plain filename — nonempty, without slash, and
not "." or ".." — check-prompt-exists answers 200 with exists true iff
a file of that exact name lies directly inside the prompts directory;
and after a successful save of such a raw filename that was not already
present, checking with the same raw filename answers true iff the raw
name equals the sanitized stored name. -/
theorem c2_check_exists_plain (st : Store) (oracle : String → Bool)
    (f : String) (h : '/' ∉ f.data) (h0 : f ≠ "")
    (h1 : f ≠ ".") (h2 : f ≠ "..") :
    handle_check_prompt_exists st oracle (some f) =
      .ok (.existsB (storeMem st f))
    ∧ (∀ c : JVal, truthy c = true →
        pyEndsWith (sanitize f) ".json" = true →
        storeMem st f = false →
        (handle_check_prompt_exists
            (handle_save_prompt st
              (.ok (.obj [("filename", .str f), ("content", c)]))).1
            oracle (some f) = .ok (.existsB true)
          ↔ f = sanitize f)) := by
  have hmain : ∀ st2 : Store,
      handle_check_prompt_exists st2 oracle (some f) =
        .ok (.existsB (storeMem st2 f)) := by
    intro st2
    simp [handle_check_prompt_exists, h0,
      existsJoined_plain st2 oracle f h h0 h1 h2]
  refine ⟨hmain st, ?_⟩
  intro c hc hs hnm
  have e1 : (handle_save_prompt st
      (.ok (.obj [("filename", .str f), ("content", c)]))).1 =
      setFile st (sanitize f) c := by
    rw [handle_save_ok st f c h0 hc hs]
  rw [e1, hmain]
  constructor
  · intro he
    injection he with hb
    injection hb with hb2
    rcases (storeMem_setFile st (sanitize f) c f).mp hb2 with heq | hmem
    · exact heq
    · simp [hnm] at hmem
  · intro heq
    have hb : storeMem (setFile st (sanitize f) c) f = true :=
      (storeMem_setFile st (sanitize f) c f).mpr (Or.inl heq)
    rw [hb]

/-- Witness for C2 at the raw filename "ab.json", content "x", empty
prompts directory. -/
theorem c2_check_exists_plain_witness :
    (handle_check_prompt_exists
        (handle_save_prompt []
          (.ok (.obj [("filename", .str "ab.json"), ("content", .str "x")]))).1
        (fun _ => false) (some "ab.json") = .ok (.existsB true)
      ↔ "ab.json" = sanitize "ab.json") :=
  (c2_check_exists_plain [] (fun _ => false) "ab.json"
      (by decide) (by decide) (by decide) (by decide)).2
    (.str "x") (by decide) (by decide) (by decide)

/-- C4 counterexample: a delete request with filename "." — the
sanitized path denotes the prompts directory itself, so no file of that
name exists, yet the handler answers a 500 server error, not the
claimed 404 not-found. -/
theorem c4_counterexample :
    storeMem [] (sanitize ".") = false
    ∧ (handle_delete_prompt []
        (.ok (.obj [("filename", .str ".")]))).2 ≠
      .error 404 "File not found"
    ∧ (handle_delete_prompt []
        (.ok (.obj [("filename", .str ".")]))).2 =
      .error 500 "Error deleting prompt: OSError" :=
  ⟨by decide, by decide, rfl⟩

/-- C4 (amended): for a delete request whose sanitized filename is a
plain name (nonempty, not "." or ".."): an existing file is removed
with 200 success; a missing file yields 404 not-found, never a
success; and a save followed by a delete of the same name leaves the
listing without that name. -/
theorem c4_delete_behavior (st : Store) (f : String) (hf : f ≠ "")
    (h0 : sanitize f ≠ "") (h1 : sanitize f ≠ ".")
    (h2 : sanitize f ≠ "..") :
    (storeMem st (sanitize f) = true →
      handle_delete_prompt st (.ok (.obj [("filename", .str f)])) =
        (eraseFile st (sanitize f), .ok (.successMsg "Prompt deleted.")))
    ∧ (storeMem st (sanitize f) = false →
      handle_delete_prompt st (.ok (.obj [("filename", .str f)])) =
        (st, .error 404 "File not found"))
    ∧ (∀ c : JVal, truthy c = true →
        pyEndsWith (sanitize f) ".json" = true →
        sanitize f ∉ promptNames
          ((handle_delete_prompt
            (handle_save_prompt st
              (.ok (.obj [("filename", .str f), ("content", c)]))).1
            (.ok (.obj [("filename", .str f)]))).1)) := by
  refine ⟨fun hm => handle_delete_found st f hf h0 h1 h2 hm,
    fun hm => handle_delete_missing st f hf h0 h1 h2 hm, ?_⟩
  intro c hc hs hmem3
  have hmem2 : storeMem (setFile st (sanitize f) c) (sanitize f) = true :=
    (storeMem_setFile st (sanitize f) c (sanitize f)).mpr (Or.inl rfl)
  have e1 : (handle_save_prompt st
      (.ok (.obj [("filename", .str f), ("content", c)]))).1 =
      setFile st (sanitize f) c := by
    rw [handle_save_ok st f c hf hc hs]
  rw [e1] at hmem3
  have e2 : (handle_delete_prompt (setFile st (sanitize f) c)
      (.ok (.obj [("filename", .str f)]))).1 =
      eraseFile (setFile st (sanitize f) c) (sanitize f) := by
    rw [handle_delete_found _ f hf h0 h1 h2 hmem2]
  rw [e2] at hmem3
  exact not_mem_keysOf_erase _ _ ((List.mem_filter.mp hmem3).1)

/-- Witness for C4 at the filename "ab.json" over a directory already
holding that file: the existing file is removed with a 200 success, and
a save followed by a delete leaves the listing without the name. -/
theorem c4_delete_behavior_witness :
    handle_delete_prompt [("ab.json", JVal.str "y")]
        (.ok (.obj [("filename", .str "ab.json")])) =
      (eraseFile [("ab.json", JVal.str "y")] (sanitize "ab.json"),
        .ok (.successMsg "Prompt deleted."))
    ∧ sanitize "ab.json" ∉ promptNames
        ((handle_delete_prompt
          (handle_save_prompt [("ab.json", JVal.str "y")]
            (.ok (.obj [("filename", .str "ab.json"),
              ("content", .str "x")]))).1
          (.ok (.obj [("filename", .str "ab.json")]))).1) :=
  ⟨(c4_delete_behavior [("ab.json", JVal.str "y")] "ab.json"
      (by decide) (by decide) (by decide) (by decide)).1 (by decide),
    (c4_delete_behavior [("ab.json", JVal.str "y")] "ab.json"
      (by decide) (by decide) (by decide) (by decide)).2.2
      (.str "x") (by decide) (by decide)⟩

/-- C6: after a successful save, list-prompts returns exactly the names
of entries directly inside the prompts directory that end in ".json"
(in directory order), and that list includes the saved sanitized
filename. -/
theorem c6_save_then_list (st : Store) (f : String) (c : JVal)
    (hf : f ≠ "") (hc : truthy c = true)
    (hs : pyEndsWith (sanitize f) ".json" = true) :
    handle_list_prompts
        (handle_save_prompt st
          (.ok (.obj [("filename", .str f), ("content", c)]))).1 =
      .ok (.strList (promptNames
        (handle_save_prompt st
          (.ok (.obj [("filename", .str f), ("content", c)]))).1))
    ∧ sanitize f ∈ promptNames
        (handle_save_prompt st
          (.ok (.obj [("filename", .str f), ("content", c)]))).1 := by
  refine ⟨rfl, ?_⟩
  have e1 : (handle_save_prompt st
      (.ok (.obj [("filename", .str f), ("content", c)]))).1 =
      setFile st (sanitize f) c := by
    rw [handle_save_ok st f c hf hc hs]
  rw [e1]
  exact List.mem_filter.mpr ⟨mem_keysOf_setFile st (sanitize f) c, hs⟩

/-- Witness for C6 at the filename "ab.json", content "x", empty
prompts directory. -/
theorem c6_save_then_list_witness :
    handle_list_prompts
        (handle_save_prompt []
          (.ok (.obj [("filename", .str "ab.json"),
            ("content", .str "x")]))).1 =
      .ok (.strList (promptNames
        (handle_save_prompt []
          (.ok (.obj [("filename", .str "ab.json"),
            ("content", .str "x")]))).1))
    ∧ sanitize "ab.json" ∈ promptNames
        (handle_save_prompt []
          (.ok (.obj [("filename", .str "ab.json"),
            ("content", .str "x")]))).1 :=
  c6_save_then_list [] "ab.json" (.str "x")
    (by decide) (by decide) (by decide)

/-- C7: every response the server produces — static GET, API and error
responses alike — carries the wildcard CORS origin header together with
the fixed allow-methods and allow-headers values, and every OPTIONS
request is answered 204 with an empty body. -/
theorem c7_cors_everywhere (st : Store) (oracle : String → Bool)
    (req : Request) (sS : Nat) (sP : List (String × String))
    (sB : Option WireBody) :
    (("Access-Control-Allow-Origin", "*")
        ∈ (serve st oracle req sS sP sB).2.headers
      ∧ ("Access-Control-Allow-Methods", "GET, POST, OPTIONS")
        ∈ (serve st oracle req sS sP sB).2.headers
      ∧ ("Access-Control-Allow-Headers", "Content-Type, Authorization")
        ∈ (serve st oracle req sS sP sB).2.headers)
    ∧ (req.method = .OPTIONS →
        (serve st oracle req sS sP sB).2.status = 204
        ∧ (serve st oracle req sS sP sB).2.body = none) := by
  refine ⟨⟨serve_headers_cors st oracle req sS sP sB _ (by simp [corsHeaders]),
    serve_headers_cors st oracle req sS sP sB _ (by simp [corsHeaders]),
    serve_headers_cors st oracle req sS sP sB _ (by simp [corsHeaders])⟩, ?_⟩
  intro hm
  obtain ⟨m, p, qf, body⟩ := req
  cases m with
  | OPTIONS => exact ⟨rfl, rfl⟩
  | GET => cases hm
  | POST => cases hm

/-- Witness for C7 at a concrete OPTIONS request: the CORS headers are
present and the response is an empty-bodied 204. -/
theorem c7_cors_everywhere_witness :
    (("Access-Control-Allow-Origin", "*")
        ∈ (serve [] (fun _ => false) ⟨.OPTIONS, "/", none, .exn ""⟩
            200 [] none).2.headers
      ∧ ("Access-Control-Allow-Methods", "GET, POST, OPTIONS")
        ∈ (serve [] (fun _ => false) ⟨.OPTIONS, "/", none, .exn ""⟩
            200 [] none).2.headers
      ∧ ("Access-Control-Allow-Headers", "Content-Type, Authorization")
        ∈ (serve [] (fun _ => false) ⟨.OPTIONS, "/", none, .exn ""⟩
            200 [] none).2.headers)
    ∧ ((serve [] (fun _ => false) ⟨.OPTIONS, "/", none, .exn ""⟩
            200 [] none).2.status = 204
        ∧ (serve [] (fun _ => false) ⟨.OPTIONS, "/", none, .exn ""⟩
            200 [] none).2.body = none) :=
  ⟨(c7_cors_everywhere [] (fun _ => false) ⟨.OPTIONS, "/", none, .exn ""⟩
      200 [] none).1,
    (c7_cors_everywhere [] (fun _ => false) ⟨.OPTIONS, "/", none, .exn ""⟩
      200 [] none).2 rfl⟩

/-- C9: a POST whose path is neither /save-prompt nor /delete-prompt is
answered 404 "Endpoint not found"; the handler does not fall back to
static file serving and the prompts directory is unchanged. -/
theorem c9_post_unknown_404 (st : Store) (oracle : String → Bool)
    (p : String) (qf : Option String) (body : ParseResult JVal)
    (sS : Nat) (sP : List (String × String)) (sB : Option WireBody)
    (h1 : p ≠ "/save-prompt") (h2 : p ≠ "/delete-prompt") :
    serve st oracle ⟨.POST, p, qf, body⟩ sS sP sB =
      (st, toWire (.error 404 "Endpoint not found")) := by
  simp [serve, do_POST, h1, h2]

/-- Witness for C9 at the POST path "/evil". -/
theorem c9_post_unknown_404_witness :
    serve [] (fun _ => false) ⟨.POST, "/evil", none, .exn ""⟩ 200 [] none =
      ([], toWire (.error 404 "Endpoint not found")) :=
  c9_post_unknown_404 [] (fun _ => false) "/evil" none (.exn "")
    200 [] none (by decide) (by decide)

/-- C10: a POST to /save-prompt or /delete-prompt whose Content-Length
or body could not be read or decoded as JSON is answered with a 500
server error echoing the exception text — not a 400 — and the prompts
directory is unchanged. -/
theorem c10_bad_body_500 (st : Store) (oracle : String → Bool)
    (e : String) (qf : Option String) (sS : Nat)
    (sP : List (String × String)) (sB : Option WireBody) :
    serve st oracle ⟨.POST, "/save-prompt", qf, .exn e⟩ sS sP sB =
      (st, toWire (.error 500 ("Error saving prompt: " ++ e)))
    ∧ serve st oracle ⟨.POST, "/delete-prompt", qf, .exn e⟩ sS sP sB =
      (st, toWire (.error 500 ("Error deleting prompt: " ++ e))) := by
  constructor <;>
    simp [serve, do_POST, handle_save_prompt, handle_delete_prompt]
